import Mathlib

/-!
Verification development for the smartanthill networking core
(`smartanthill/network/service.py`) and configuration accessor
(`smartanthill/config.py`).

The Python services are shallowly embedded: bus publishes and wrapper
calls become explicit effect lists, Twisted deferred outcomes become an
input datatype, and the mutable service objects become explicit state
records transformed by the `startService` / `stopService` functions.
Entities owned by external collaborators (the device registry's `Device`,
`Node` and `Connection` objects, and the protocol wrappers) are modelled
from the spec at their interface boundary, as the spec describes them.
-/

namespace SmartAnthill

/-- Model of a Python runtime value, as far as the embedded code observes
one: the code only tests truthiness (`if result and ...`,
`if default is not None`) and passes values through unchanged. -/
inductive PyVal where
  | none
  | bool (b : Bool)
  | int (n : Int)
  | str (s : String)
deriving DecidableEq, Repr

/-- Python truthiness of a `PyVal` (`bool(v)`). -/
def truthy : PyVal → Bool
  | PyVal.none => false
  | PyVal.bool b => b
  | PyVal.int n => decide (n ≠ 0)
  | PyVal.str s => decide (s ≠ "")

/-- A Control-layer message as the Transport outbound handler observes it:
`p.ControlProtocol.rawmessage_to_message(message)` (external protocol
collaborator) yields an object carrying the application payload and the
ack-request flag `.ack`. -/
structure CtrlMessage where
  ack : Bool
  payload : List Nat
deriving DecidableEq, Repr

/-- Payload of a bus publish: either a Control message object or raw
bytes. -/
inductive Payload where
  | ctrl (m : CtrlMessage)
  | raw (bytes : List Nat)
deriving DecidableEq, Repr

/-- One `litemq.produce(exchange, routing_key, payload, properties)` call;
`binary` records `properties.get("binary", False)`. -/
structure Produce where
  exchange : String
  routing_key : String
  payload : Payload
  binary : Bool
deriving DecidableEq, Repr

/-- Number of publishes in `fx` whose routing key is `k`. -/
def countKey (k : String) (fx : List Produce) : Nat :=
  (fx.filter (fun e => e.routing_key == k)).length

/-- Outcome of `maybeDeferred(self._protocol.send_message, message)`: the
external send operation either raises (the failure is tagged by a token
so re-raising the same failure is observable) or resolves to a value. -/
inductive SendOutcome where
  | raises (f : Nat)
  | succeeds (r : PyVal)
deriving DecidableEq, Repr

namespace TransportService

/-- Embedding of `TransportService.outmessage_mqcallback`.  `ctrlmsg` is
the Control-message view derived from the raw bytes before the send; the
deferred's outcome is the `outcome` input.  Returns the bus publishes the
handler performs and its result: `Except.error f` when the errback
re-raised failure `f` (`failure.raiseException()`), `Except.ok r` when
the handler returned `r` (`returnValue(result)`). -/
def outmessage_mqcallback (ctrlmsg : CtrlMessage) (outcome : SendOutcome) :
    List Produce × Except Nat PyVal :=
  match outcome with
  | SendOutcome.raises f =>
      ([⟨"network", "transport->err", Payload.ctrl ctrlmsg, false⟩],
       Except.error f)
  | SendOutcome.succeeds r =>
      if truthy r && ctrlmsg.ack then
        ([⟨"network", "transport->ack", Payload.ctrl ctrlmsg, false⟩],
         Except.ok r)
      else
        ([], Except.ok r)

end TransportService

/-- Looks a key up in a Python-dict-like association list
(`d[k]` read, `None` when absent). -/
def dictGet {α : Type} (d : List (String × α)) (k : String) : Option α :=
  (d.find? (fun e => e.1 == k)).map (fun e => e.2)

/-- Python dict assignment `d[k] = v`: overwrites in place when the key
exists, otherwise appends a new entry. -/
def dictSet {α : Type} (d : List (String × α)) (k : String) (v : α) :
    List (String × α) :=
  if d.any (fun e => e.1 == k) then
    d.map (fun e => if e.1 == k then (k, v) else e)
  else
    d ++ [(k, v)]

/-- Python dict deletion `del d[k]`. -/
def dictDel {α : Type} (d : List (String × α)) (k : String) :
    List (String × α) :=
  d.filter (fun e => e.1 != k)

/-- A value stored in a `Connection.params` mapping: a configured scalar
(string or number), or one of the two object references the router start
code inserts (`self._protocol` and the global `reactor`). -/
inductive ParamVal where
  | str (s : String)
  | int (n : Int)
  | protocolRef
  | reactorRef
deriving DecidableEq, Repr

/-- Modelled from the spec: `Connection` is an external device-registry
entity "specifying link type (e.g. serial) and type-specific parameters
(e.g. port, baud)"; `get_type()` returns the link type and `params` is
its parameter mapping (a plain mutable Python dict attribute). -/
structure Connection where
  typ : String
  params : List (String × ParamVal)
deriving DecidableEq, Repr

/-- The Python `connection.get_type()` accessor. -/
def Connection.get_type (c : Connection) : String := c.typ

/-- Modelled from the spec: a `Node` is a child device address with an
`id_` field, reachable through its router device. -/
structure Node where
  id_ : Nat
deriving DecidableEq, Repr

/-- Modelled from the spec: `Device` is an external device-registry
entity exposing `router : bool` (the `options.get("router", False)`
flag), a `connection` spec, and `get_nodes()` returning its child
nodes. -/
structure Device where
  router : Bool
  connection : Connection
  nodes : List Node
deriving DecidableEq, Repr

/-- The Python `devobj.get_nodes()` accessor. -/
def Device.get_nodes (d : Device) : List Node := d.nodes

/-- Effect of the Router outbound handler: handing a segment to the
wrapper's `send_segment` (transmission on the physical link) or a bus
publish. -/
inductive RouterEffect where
  | sendSegment (msg : List Nat)
  | produce (exchange : String) (routing_key : String)
deriving DecidableEq, Repr

/-- Whether the external `SerialPort(**kwargs)` constructor opens the
link or raises. -/
inductive OpenOutcome where
  | opens
  | raises
deriving DecidableEq, Repr

namespace RouterService

/-- `RouterService.RECONNECT_DELAY = 1  # in seconds`. -/
def RECONNECT_DELAY : Nat := 1

/-- Mutable state of one `RouterService` instance: its construction-time
options (`deviceids`, `connection`), the failure counter
`self._reconnect_nums`, whether `self._litemq` has been set, whether
`SAMultiService.startService` has completed, the live bus subscriptions
(queue, binding key) on exchange "network", and the delay of the last
`reactor.callLater` reconnect timer still pending, if any. -/
structure State where
  deviceids : List Nat
  connection : Connection
  reconnect_nums : Nat
  litemq : Bool
  running : Bool
  subscriptions : List (String × String)
  pendingTimer : Option Nat
deriving DecidableEq, Repr

/-- State after `RouterService.__init__` with the given options:
`self._reconnect_nums = 0`, `self._litemq = None`, not started. -/
def init (deviceids : List Nat) (connection : Connection) : State :=
  { deviceids := deviceids
    connection := connection
    reconnect_nums := 0
    litemq := false
    running := false
    subscriptions := []
    pendingTimer := Option.none }

/-- The `try:` block of `RouterService.startService`.  For a serial
connection it binds `_kwargs = connection.params` (an alias, not a
copy), reads `_kwargs['port']` (KeyError when absent — caught by the
bare `except:`), stores it under `deviceNameOrPortNumber`, deletes
`port`, adds the `protocol` and `reactor` references, and calls
`SerialPort(**_kwargs)` whose outcome is the `port_open` input.  Because
`_kwargs` aliases `connection.params`, all four dict operations land in
the connection object; the returned connection carries them.  For a
non-serial connection the block does nothing and succeeds.  Returns the
connection after the attempt and whether the block completed without an
exception. -/
def tryConnect (conn : Connection) (port_open : OpenOutcome) :
    Connection × Bool :=
  if conn.get_type == "serial" then
    match dictGet conn.params "port" with
    | Option.none => (conn, false)
    | Option.some portv =>
        let kwargs := dictSet conn.params "deviceNameOrPortNumber" portv
        let kwargs := dictDel kwargs "port"
        let kwargs := dictSet kwargs "protocol" ParamVal.protocolRef
        let kwargs := dictSet kwargs "reactor" ParamVal.reactorRef
        ({ conn with params := kwargs },
         match port_open with
         | OpenOutcome.opens => true
         | OpenOutcome.raises => false)
  else
    (conn, true)

/-- Embedding of `RouterService.startService`.  On an exception in the
connect block: log the failure, increment `self._reconnect_nums`,
schedule `startService` again after `self._reconnect_nums *
RECONNECT_DELAY`, and return without completing startup.  On success:
obtain the bus handle, consume `routing.out` bound to
`transport->routing`, and complete `SAMultiService.startService`. -/
def startService (s : State) (port_open : OpenOutcome) : State :=
  let r := tryConnect s.connection port_open
  if r.2 then
    { s with
      connection := r.1
      litemq := true
      running := true
      subscriptions := s.subscriptions ++ [("routing.out", "transport->routing")] }
  else
    { s with
      connection := r.1
      reconnect_nums := s.reconnect_nums + 1
      pendingTimer := Option.some ((s.reconnect_nums + 1) * RECONNECT_DELAY) }

/-- Embedding of `RouterService.stopService`: stop the service container,
then `unconsume("network", "routing.out")` if the bus handle was
obtained.  No other field is touched — in particular no pending
`callLater` reconnect timer is cancelled. -/
def stopService (s : State) : State :=
  { s with
    running := false
    subscriptions :=
      if s.litemq then
        s.subscriptions.filter (fun q => q.1 != "routing.out")
      else
        s.subscriptions }

/-- Embedding of `RouterService.outsegment_mqcallback`: if the byte at
offset 2 of the segment (`ord(message[2])`) is not in
`self.options['deviceids']`, return `False`; otherwise hand the segment
to the wrapper's `send_segment` and fall off the end (return `None`). -/
def outsegment_mqcallback (deviceids : List Nat) (message : List Nat)
    (h : 2 < message.length) : List RouterEffect × PyVal :=
  if message[2] ∉ deviceids then
    ([], PyVal.bool false)
  else
    ([RouterEffect.sendSegment message], PyVal.none)

end RouterService

/-- One observable step of `NetworkService.startService` /
`stopService`: a bus exchange declare/undeclare or the construction and
parenting of a child service (Control, Transport, or a Router with its
construction-time options). -/
inductive NetEffect where
  | declareExchange (name : String)
  | undeclareExchange (name : String)
  | startControl (name : String)
  | startTransport (name : String)
  | startRouter (name : String) (connection : Connection) (deviceids : List Nat)
deriving DecidableEq, Repr

/-- The device loop of `NetworkService.startService`: for each
`(devid, devobj)` of `get_devices().iteritems()`, skip it unless
`devobj.options.get("router", False)`, otherwise construct
`RouterService("network.router.%d" % devid, {connection:
devobj.connection, deviceids: [devid] + [d.id_ for d in
devobj.get_nodes()]})` and parent it. -/
def routerChildren : List (Nat × Device) → List NetEffect
  | [] => []
  | (devid, devobj) :: rest =>
      if !devobj.router then
        routerChildren rest
      else
        NetEffect.startRouter ("network.router." ++ toString devid)
            devobj.connection
            ([devid] ++ (devobj.get_nodes.map Node.id_)) ::
          routerChildren rest

namespace NetworkService

/-- Embedding of `NetworkService.startService` as its effect trace:
declare the "network" exchange, parent a ControlService and a
TransportService, then run the device loop over the registry snapshot. -/
def startService (devices : List (Nat × Device)) : List NetEffect :=
  NetEffect.declareExchange "network" ::
    NetEffect.startControl "network.control" ::
      NetEffect.startTransport "network.transport" ::
        routerChildren devices

/-- Embedding of `NetworkService.stopService` as its effect trace: the
container stops the children, then the "network" exchange is
undeclared. -/
def stopService : List NetEffect :=
  [NetEffect.undeclareExchange "network"]

end NetworkService

/-- Number of `declare_exchange name` calls in a network effect trace. -/
def countDeclares (name : String) : List NetEffect → Nat
  | [] => 0
  | NetEffect.declareExchange n :: fx =>
      (if n == name then 1 else 0) + countDeclares name fx
  | _ :: fx => countDeclares name fx

/-- Number of `undeclare_exchange name` calls in a network effect
trace. -/
def countUndeclares (name : String) : List NetEffect → Nat
  | [] => 0
  | NetEffect.undeclareExchange n :: fx =>
      (if n == name then 1 else 0) + countUndeclares name fx
  | _ :: fx => countUndeclares name fx

/-- A JSON-like configuration value as stored in `Config._data`. -/
inductive CVal where
  | null
  | bool (b : Bool)
  | int (n : Int)
  | str (s : String)
  | dict (entries : List (String × CVal))
  | arr (xs : List CVal)

/-- Whether a configuration value is Python `None` (`default is None`). -/
def CVal.isNull : CVal → Bool
  | CVal.null => true
  | _ => false

/-- Accumulator-passing core of `splitDots`. -/
def splitDotsAux : List Char → List Char → List String
  | [], acc => [String.mk acc.reverse]
  | c :: cs, acc =>
      if c = '.' then
        String.mk acc.reverse :: splitDotsAux cs []
      else
        splitDotsAux cs (c :: acc)

/-- Model of Python's `key_path.split(".")`: splits at every dot, keeps
empty pieces, and returns `[""]` for the empty string. -/
def splitDots (s : String) : List String :=
  splitDotsAux s.toList []

/-- A Python exception escaping the embedded `Config.get`. -/
inductive PyErr where
  | keyError (k : String)
  | typeError
  | configKeyError (key_path : String)
deriving DecidableEq, Repr

/-- One `value = value[k]` step of the `Config.get` loop: indexing a dict
with a present key descends, a dict missing the key raises `KeyError`,
and indexing any non-dict value with a string key raises `TypeError`. -/
def lookupStep (v : CVal) (k : String) : Except PyErr CVal :=
  match v with
  | CVal.dict es =>
      match dictGet es k with
      | Option.some w => Except.ok w
      | Option.none => Except.error (PyErr.keyError k)
  | _ => Except.error PyErr.typeError

/-- The full `for k in key_path.split("."): value = value[k]` traversal. -/
def getPath (v : CVal) : List String → Except PyErr CVal
  | [] => Except.ok v
  | k :: ks =>
      match lookupStep v k with
      | Except.ok w => getPath w ks
      | Except.error e => Except.error e

namespace Config

/-- Embedding of `Config.get(key_path, default=None)`: traverse the
dotted path through `_data`; `except KeyError:` returns `default` when
it is not `None` and otherwise raises `ConfigKeyError(key_path)`; any
other exception (notably `TypeError`) propagates. -/
def get (data : CVal) (key_path : String) (default : CVal := CVal.null) :
    Except PyErr CVal :=
  match getPath data (splitDots key_path) with
  | Except.ok v => Except.ok v
  | Except.error (PyErr.keyError _) =>
      if !default.isNull then
        Except.ok default
      else
        Except.error (PyErr.configKeyError key_path)
  | Except.error e => Except.error e

end Config

/-- Modelled from the spec for the refinement comparison in claim C9:
the value stored at a dotted path — the path is present exactly when
every component resolves through nested mappings down to a stored
value. -/
def storedAt : List String → CVal → Option CVal
  | [], v => Option.some v
  | k :: ks, CVal.dict es =>
      match dictGet es k with
      | Option.some w => storedAt ks w
      | Option.none => Option.none
  | _ :: _, _ => Option.none

/-- A concrete nested configuration, `{"a": {"b": 2}}`. -/
def sampleConf : CVal :=
  CVal.dict [("a", CVal.dict [("b", CVal.int 2)])]

/-- A concrete serial connection spec as the device registry would
configure one: `{"port": "/dev/ttyUSB0", "baudrate": 9600}`. -/
def serialConn : Connection :=
  ⟨"serial",
   [("port", ParamVal.str "/dev/ttyUSB0"),
    ("baudrate", ParamVal.int 9600)]⟩

/-- Claim C1 counterexample: an outbound message with ack-requested=true
whose send operation completes successfully (the handler returns
`Except.ok` of the resolved value `None`, the value Twisted hands the
callback when `send_message` returns nothing) yields zero publishes to
`transport->ack`, not the exactly one the claim requires. -/
theorem C1_counterexample :
    (TransportService.outmessage_mqcallback ⟨true, []⟩
        (SendOutcome.succeeds PyVal.none)).2 = Except.ok PyVal.none ∧
    ¬ (countKey "transport->ack"
        (TransportService.outmessage_mqcallback ⟨true, []⟩
          (SendOutcome.succeeds PyVal.none)).1 = 1) :=
  ⟨rfl, by decide⟩

/-- Claim C1 (amended): a send that raises yields exactly one publish to
`transport->err` and zero to `transport->ack`; a send that succeeds with
a truthy resolved result and ack-requested=true yields exactly one
publish to `transport->ack` and zero to `transport->err`; a send that
succeeds with a falsy result, or with ack-requested=false, yields
neither. -/
theorem C1_ack_err_publication (m : CtrlMessage) (r : PyVal) (f : Nat) :
    (countKey "transport->err"
        (TransportService.outmessage_mqcallback m (SendOutcome.raises f)).1 = 1 ∧
      countKey "transport->ack"
        (TransportService.outmessage_mqcallback m (SendOutcome.raises f)).1 = 0) ∧
    ((truthy r && m.ack) = true →
      countKey "transport->ack"
          (TransportService.outmessage_mqcallback m (SendOutcome.succeeds r)).1 = 1 ∧
        countKey "transport->err"
          (TransportService.outmessage_mqcallback m (SendOutcome.succeeds r)).1 = 0) ∧
    ((truthy r && m.ack) = false →
      (TransportService.outmessage_mqcallback m (SendOutcome.succeeds r)).1 = []) := by
  refine ⟨⟨rfl, rfl⟩, fun h => ?_, fun h => ?_⟩
  · simp [TransportService.outmessage_mqcallback, h, countKey]
  · simp [TransportService.outmessage_mqcallback, h]

/-- Witness for `C1_ack_err_publication` at concrete inputs: an
ack-requested message whose send resolves to the truthy value `1` gets
exactly one ack publish and no error publish, and one whose send
resolves to `None` gets no publish at all. -/
theorem C1_ack_err_publication_witness :
    (countKey "transport->ack"
        (TransportService.outmessage_mqcallback ⟨true, [3]⟩
          (SendOutcome.succeeds (PyVal.int 1))).1 = 1 ∧
      countKey "transport->err"
        (TransportService.outmessage_mqcallback ⟨true, [3]⟩
          (SendOutcome.succeeds (PyVal.int 1))).1 = 0) ∧
    (TransportService.outmessage_mqcallback ⟨true, [3]⟩
        (SendOutcome.succeeds PyVal.none)).1 = [] :=
  ⟨(C1_ack_err_publication ⟨true, [3]⟩ (PyVal.int 1) 0).2.1 (by decide),
   (C1_ack_err_publication ⟨true, [3]⟩ PyVal.none 0).2.2 (by decide)⟩

/-- Claim C4: when the send operation fails, the handler publishes the
original Control message, unchanged, to `transport->err` (and nothing
else) and then re-raises the same failure to the bus instead of
swallowing it. -/
theorem C4_err_publish_and_reraise (m : CtrlMessage) (f : Nat) :
    TransportService.outmessage_mqcallback m (SendOutcome.raises f) =
      ([⟨"network", "transport->err", Payload.ctrl m, false⟩],
       Except.error f) :=
  rfl

/-- Claim C10: the `transport->ack` publish happens only for a send that
resolves to a truthy value: a successful send with a falsy resolved
result publishes nothing (neither ack nor err), regardless of the ack
flag, and any ack publish implies the outcome was a success with a
truthy result on an ack-requested message. -/
theorem C10_ack_only_on_truthy (m : CtrlMessage) (r : PyVal)
    (o : SendOutcome) :
    (m.ack = true → truthy r = false →
      (TransportService.outmessage_mqcallback m (SendOutcome.succeeds r)).1 = []) ∧
    (countKey "transport->ack"
        (TransportService.outmessage_mqcallback m o).1 ≠ 0 →
      ∃ rr, o = SendOutcome.succeeds rr ∧ truthy rr = true ∧ m.ack = true) := by
  constructor
  · intro hack hr
    simp [TransportService.outmessage_mqcallback, hr]
  · intro h
    cases o with
    | raises f => exact absurd rfl h
    | succeeds rr =>
        by_cases hc : (truthy rr && m.ack) = true
        · exact ⟨rr, rfl, ((Bool.and_eq_true _ _).mp hc).1,
            ((Bool.and_eq_true _ _).mp hc).2⟩
        · have hc2 : (truthy rr && m.ack) = false := by
            simpa using hc
          have hfx : (TransportService.outmessage_mqcallback m
              (SendOutcome.succeeds rr)).1 = [] := by
            simp [TransportService.outmessage_mqcallback, hc2]
          rw [hfx] at h
          exact absurd rfl h

/-- Witness for `C10_ack_only_on_truthy` at concrete inputs: an
ack-requested message whose send resolves to `None` publishes nothing,
and a message with one ack publish indeed had a truthy successful
outcome. -/
theorem C10_ack_only_on_truthy_witness :
    (TransportService.outmessage_mqcallback ⟨true, [2]⟩
        (SendOutcome.succeeds PyVal.none)).1 = [] ∧
    (∃ rr, SendOutcome.succeeds (PyVal.int 5) = SendOutcome.succeeds rr ∧
       truthy rr = true ∧ (true : Bool) = true) :=
  ⟨(C10_ack_only_on_truthy ⟨true, [2]⟩ PyVal.none
      (SendOutcome.succeeds PyVal.none)).1 rfl rfl,
   (C10_ack_only_on_truthy ⟨true, [2]⟩ PyVal.none
      (SendOutcome.succeeds (PyVal.int 5))).2 (by decide)⟩

/-- Claim C2: the Router outbound handler forwards a segment to the
wrapper's `send_segment` exactly when the byte at offset 2 is in the
authorized id set `{I, n1, ..., nk}`; otherwise it performs no effect at
all (no forward, no error publish) and returns the falsy value `False`
to the caller. -/
theorem C2_destination_filter (I : Nat) (nodeIds : List Nat)
    (msg : List Nat) (h : 2 < msg.length) :
    (msg[2] ∈ I :: nodeIds →
      RouterService.outsegment_mqcallback (I :: nodeIds) msg h =
        ([RouterEffect.sendSegment msg], PyVal.none)) ∧
    (msg[2] ∉ I :: nodeIds →
      RouterService.outsegment_mqcallback (I :: nodeIds) msg h =
        ([], PyVal.bool false) ∧
        truthy (PyVal.bool false) = false) := by
  constructor
  · intro hmem
    unfold RouterService.outsegment_mqcallback
    rw [if_neg (not_not_intro hmem)]
  · intro hnot
    unfold RouterService.outsegment_mqcallback
    rw [if_pos hnot]
    exact ⟨rfl, rfl⟩

/-- Witness for `C2_destination_filter` at concrete inputs: a router
authorized for ids `{1, 2}` forwards the segment `[0, 0, 2, 9]`
(destination byte 2) and silently drops `[0, 0, 7, 9]` (destination
byte 7) with the non-success return `False`. -/
theorem C2_destination_filter_witness :
    RouterService.outsegment_mqcallback [1, 2] [0, 0, 2, 9] (by decide) =
      ([RouterEffect.sendSegment [0, 0, 2, 9]], PyVal.none) ∧
    (RouterService.outsegment_mqcallback [1, 2] [0, 0, 7, 9] (by decide) =
      ([], PyVal.bool false) ∧
      truthy (PyVal.bool false) = false) :=
  ⟨(C2_destination_filter 1 [2] [0, 0, 2, 9] (by decide)).1 (by decide),
   (C2_destination_filter 1 [2] [0, 0, 7, 9] (by decide)).2 (by decide)⟩

/-- The connect block of a serial router fails when `SerialPort`
raises, whatever the params hold. -/
theorem tryConnect_raises_not_ok (conn : Connection)
    (h : conn.get_type = "serial") :
    (RouterService.tryConnect conn OpenOutcome.raises).2 = false := by
  unfold RouterService.tryConnect
  cases hd : dictGet conn.params "port" <;> simp [h, hd]

/-- The connect attempt never changes the connection's link type. -/
theorem tryConnect_get_type (conn : Connection) (o : OpenOutcome) :
    (RouterService.tryConnect conn o).1.get_type = conn.get_type := by
  unfold RouterService.tryConnect
  cases hser : (conn.get_type == "serial") <;>
    cases hd : dictGet conn.params "port" <;>
      cases o <;> simp [hser, hd, Connection.get_type]

/-- On a failed connect attempt, `startService` only increments the
failure counter, re-arms the reconnect timer with the incremented
multiplier, and records the (possibly mutated) connection. -/
theorem startService_raises_step (s : RouterService.State)
    (h : s.connection.get_type = "serial") :
    RouterService.startService s OpenOutcome.raises =
      { s with
        connection := (RouterService.tryConnect s.connection OpenOutcome.raises).1
        reconnect_nums := s.reconnect_nums + 1
        pendingTimer :=
          Option.some ((s.reconnect_nums + 1) * RouterService.RECONNECT_DELAY) } := by
  simp [RouterService.startService, tryConnect_raises_not_ok s.connection h]

/-- State invariant of the reconnect loop: after `N` consecutive connect
failures of a fresh serial router, the counter reads `N`, startup has
never completed, no subscription was made, the link type is still
serial, and (for `N ≥ 1`) the pending timer delay is `N *
RECONNECT_DELAY`. -/
theorem router_retry_loop_fields (ids : List Nat) (conn : Connection)
    (h : conn.get_type = "serial") (N : Nat) :
    ((fun s => RouterService.startService s OpenOutcome.raises)^[N]
        (RouterService.init ids conn)).reconnect_nums = N ∧
    ((fun s => RouterService.startService s OpenOutcome.raises)^[N]
        (RouterService.init ids conn)).running = false ∧
    ((fun s => RouterService.startService s OpenOutcome.raises)^[N]
        (RouterService.init ids conn)).litemq = false ∧
    ((fun s => RouterService.startService s OpenOutcome.raises)^[N]
        (RouterService.init ids conn)).subscriptions = [] ∧
    ((fun s => RouterService.startService s OpenOutcome.raises)^[N]
        (RouterService.init ids conn)).connection.get_type = "serial" ∧
    (1 ≤ N →
      ((fun s => RouterService.startService s OpenOutcome.raises)^[N]
          (RouterService.init ids conn)).pendingTimer =
        Option.some (N * RouterService.RECONNECT_DELAY)) := by
  induction N with
  | zero =>
      refine ⟨rfl, rfl, rfl, rfl, h, ?_⟩
      intro hN
      exact absurd hN (by decide)
  | succ n ih =>
      obtain ⟨h1, h2, h3, h4, h5, _⟩ := ih
      rw [Function.iterate_succ_apply', startService_raises_step _ h5]
      refine ⟨by simp [h1], by simp [h2], by simp [h3], by simp [h4], ?_, ?_⟩
      · simpa using (tryConnect_get_type _ _).trans h5
      · intro _
        simp [h1]

/-- Claim C3: for a serial router whose link never opens, the `N`-th
consecutive connect failure leaves the per-instance failure counter at
exactly `N` and a scheduled retry with delay exactly `N *
RECONNECT_DELAY`, and the service has not completed startup: it is not
running and holds no bus subscription. -/
theorem C3_reconnect_backoff (ids : List Nat) (conn : Connection) (N : Nat)
    (hser : conn.get_type = "serial") (hN : 1 ≤ N) :
    ((fun s => RouterService.startService s OpenOutcome.raises)^[N]
        (RouterService.init ids conn)).reconnect_nums = N ∧
    ((fun s => RouterService.startService s OpenOutcome.raises)^[N]
        (RouterService.init ids conn)).pendingTimer =
      Option.some (N * RouterService.RECONNECT_DELAY) ∧
    ((fun s => RouterService.startService s OpenOutcome.raises)^[N]
        (RouterService.init ids conn)).running = false ∧
    ((fun s => RouterService.startService s OpenOutcome.raises)^[N]
        (RouterService.init ids conn)).subscriptions = [] := by
  obtain ⟨h1, h2, h3, h4, h5, h6⟩ := router_retry_loop_fields ids conn hser N
  exact ⟨h1, h6 hN, h2, h4⟩

/-- Witness for `C3_reconnect_backoff`: a router on a concrete serial
connection that fails twice has counter 2 and a pending retry delayed by
2 seconds, and is still not started. -/
theorem C3_reconnect_backoff_witness :
    ((fun s => RouterService.startService s OpenOutcome.raises)^[2]
        (RouterService.init [1] serialConn)).reconnect_nums = 2 ∧
    ((fun s => RouterService.startService s OpenOutcome.raises)^[2]
        (RouterService.init [1] serialConn)).pendingTimer =
      Option.some (2 * RouterService.RECONNECT_DELAY) ∧
    ((fun s => RouterService.startService s OpenOutcome.raises)^[2]
        (RouterService.init [1] serialConn)).running = false ∧
    ((fun s => RouterService.startService s OpenOutcome.raises)^[2]
        (RouterService.init [1] serialConn)).subscriptions = [] :=
  C3_reconnect_backoff [1] serialConn 2 rfl (by decide)

/-- Claim C7 (refuted on the code): starting a router over a serial
connection mutates the Connection object's parameter dict in place —
`_kwargs` aliases `connection.params`, so the port rename and the
`protocol`/`reactor` insertions land in the registry-owned object.
After one failed attempt `port` is gone and, because of that, even a
retry whose serial port would open fine still fails to start. -/
theorem C7_connection_mutated :
    dictGet (RouterService.startService (RouterService.init [0] serialConn)
        OpenOutcome.raises).connection.params "port" = Option.none ∧
    dictGet (RouterService.startService (RouterService.init [0] serialConn)
        OpenOutcome.raises).connection.params "deviceNameOrPortNumber" =
      Option.some (ParamVal.str "/dev/ttyUSB0") ∧
    dictGet (RouterService.startService (RouterService.init [0] serialConn)
        OpenOutcome.raises).connection.params "protocol" =
      Option.some ParamVal.protocolRef ∧
    dictGet (RouterService.startService (RouterService.init [0] serialConn)
        OpenOutcome.raises).connection.params "reactor" =
      Option.some ParamVal.reactorRef ∧
    (RouterService.startService (RouterService.init [0] serialConn)
        OpenOutcome.raises).connection ≠ serialConn ∧
    (RouterService.startService
        (RouterService.startService (RouterService.init [0] serialConn)
          OpenOutcome.raises)
        OpenOutcome.opens).running = false := by
  decide

/-- Claim C8 (refuted on the code): `RouterService.stopService` only
stops the container and unconsumes the queue; it does not cancel a
pending reconnect timer.  After stopping a router with a pending retry,
the timer is still armed, and when it fires it runs `startService`
against the torn-down service, scheduling yet another retry. -/
theorem C8_timer_survives_stop :
    (RouterService.stopService (RouterService.startService
        (RouterService.init [0] serialConn) OpenOutcome.raises)).pendingTimer =
      Option.some (1 * RouterService.RECONNECT_DELAY) ∧
    (RouterService.stopService (RouterService.startService
        (RouterService.init [0] serialConn) OpenOutcome.raises)).running =
      false ∧
    (RouterService.startService
        (RouterService.stopService (RouterService.startService
          (RouterService.init [0] serialConn) OpenOutcome.raises))
        OpenOutcome.opens).pendingTimer =
      Option.some (2 * RouterService.RECONNECT_DELAY) := by
  decide

/-- The device loop of `NetworkService.startService` declares and
undeclares no exchange, whatever the registry holds. -/
theorem routerChildren_counts (name : String) (ds : List (Nat × Device)) :
    countDeclares name (routerChildren ds) = 0 ∧
    countUndeclares name (routerChildren ds) = 0 := by
  induction ds with
  | nil => exact ⟨rfl, rfl⟩
  | cons d rest ih =>
      obtain ⟨devid, devobj⟩ := d
      by_cases hr : devobj.router
      · simpa [routerChildren, hr, countDeclares, countUndeclares] using ih
      · simpa [routerChildren, hr] using ih

/-- Claim C5: for every registry contents (zero routers included),
`NetworkService.startService` declares the shared "network" exchange
exactly once and undeclares it never, and `stopService` undeclares it
exactly once and declares it never. -/
theorem C5_exchange_once (devices : List (Nat × Device)) :
    countDeclares "network" (NetworkService.startService devices) = 1 ∧
    countUndeclares "network" NetworkService.stopService = 1 ∧
    countUndeclares "network" (NetworkService.startService devices) = 0 ∧
    countDeclares "network" NetworkService.stopService = 0 := by
  obtain ⟨hd, hu⟩ := routerChildren_counts "network" devices
  refine ⟨?_, rfl, ?_, rfl⟩
  · simp [NetworkService.startService, countDeclares, hd]
  · simp [NetworkService.startService, countUndeclares, hu]

/-- The device loop constructs exactly one RouterService per
router-flagged device, in registry order, scoped to the device's own
connection and to the id set {device id} ∪ {child node ids}. -/
theorem routerChildren_spec (devices : List (Nat × Device)) :
    routerChildren devices =
      (devices.filter (fun p => p.2.router)).map
        (fun p =>
          NetEffect.startRouter ("network.router." ++ toString p.1)
            p.2.connection (p.1 :: p.2.get_nodes.map Node.id_)) := by
  induction devices with
  | nil => rfl
  | cons d rest ih =>
      obtain ⟨devid, devobj⟩ := d
      by_cases hr : devobj.router
      · simp [routerChildren, hr, ih, Device.get_nodes]
      · simp [routerChildren, hr, ih]

/-- Claim C6: `NetworkService.startService` parents a ControlService and
a TransportService unconditionally; it constructs exactly one
RouterService per router-flagged device of the registry snapshot, with
authorized id set {device id} ∪ {child node ids} and the device's
connection; and a RouterService's id set is never changed after
construction by its start or stop transitions. -/
theorem C6_router_assembly (devices : List (Nat × Device)) :
    NetEffect.startControl "network.control" ∈
      NetworkService.startService devices ∧
    NetEffect.startTransport "network.transport" ∈
      NetworkService.startService devices ∧
    routerChildren devices =
      (devices.filter (fun p => p.2.router)).map
        (fun p =>
          NetEffect.startRouter ("network.router." ++ toString p.1)
            p.2.connection (p.1 :: p.2.get_nodes.map Node.id_)) ∧
    (∀ (s : RouterService.State) (o : OpenOutcome),
      (RouterService.startService s o).deviceids = s.deviceids) ∧
    (∀ s : RouterService.State,
      (RouterService.stopService s).deviceids = s.deviceids) := by
  refine ⟨?_, ?_, routerChildren_spec devices, ?_, ?_⟩
  · simp [NetworkService.startService]
  · simp [NetworkService.startService]
  · intro s o
    unfold RouterService.startService
    cases h : (RouterService.tryConnect s.connection o).2 <;> simp [h]
  · intro s
    rfl

/-- A stored value reached through nested dicts is exactly what the
`Config.get` traversal loop returns. -/
theorem getPath_of_storedAt (ks : List String) :
    ∀ v w : CVal, storedAt ks v = Option.some w →
      getPath v ks = Except.ok w := by
  induction ks with
  | nil =>
      intro v w h
      simp [storedAt] at h
      rw [h]
      rfl
  | cons k ks ih =>
      intro v w h
      cases v with
      | dict es =>
          cases hd : dictGet es k with
          | none =>
              rw [storedAt, hd] at h
              exact absurd h (by simp)
          | some u =>
              rw [storedAt, hd] at h
              simp [getPath, lookupStep, hd]
              exact ih u w h
      | null => exact absurd h (by simp [storedAt])
      | bool b => exact absurd h (by simp [storedAt])
      | int n => exact absurd h (by simp [storedAt])
      | str s => exact absurd h (by simp [storedAt])
      | arr xs => exact absurd h (by simp [storedAt])

/-- Claim C9 counterexample: with `_data = {"a": 1}` the dotted path
"a.b" is absent (its traversal fails) and the default `7` is supplied,
yet `Config.get` returns neither the default nor a `ConfigKeyError`: the
second loop step indexes the integer `1`, the `TypeError` it raises is
not caught by the `except KeyError:` clause, and it propagates. -/
theorem C9_counterexample :
    getPath (CVal.dict [("a", CVal.int 1)]) (splitDots "a.b") =
      Except.error PyErr.typeError ∧
    Config.get (CVal.dict [("a", CVal.int 1)]) "a.b" (CVal.int 7) =
      Except.error PyErr.typeError ∧
    (Except.error PyErr.typeError : Except PyErr CVal) ≠
      Except.ok (CVal.int 7) :=
  ⟨rfl, rfl, fun h => nomatch h⟩

/-- Claim C9 (amended): `Config.get` returns the stored value whenever
the dotted path resolves through nested mappings; when the traversal
fails with a `KeyError` (a mapping on the path lacks the next
component), it returns the default if one other than `None` was supplied
and otherwise raises `ConfigKeyError` carrying the key path.  (When the
traversal instead indexes a non-mapping, the resulting `TypeError`
propagates — see the counterexample.) -/
theorem C9_get_behavior (data : CVal) (key_path : String) (default : CVal) :
    (∀ v, storedAt (splitDots key_path) data = Option.some v →
      Config.get data key_path default = Except.ok v) ∧
    (∀ k, getPath data (splitDots key_path) =
        Except.error (PyErr.keyError k) →
      (default.isNull = false →
        Config.get data key_path default = Except.ok default) ∧
      (default.isNull = true →
        Config.get data key_path default =
          Except.error (PyErr.configKeyError key_path))) := by
  constructor
  · intro v h
    unfold Config.get
    rw [getPath_of_storedAt _ _ _ h]
  · intro k h
    unfold Config.get
    rw [h]
    constructor <;> intro hd <;> simp [hd]

/-- Witness for `C9_get_behavior` on the concrete configuration
`{"a": {"b": 2}}`: the present path "a.b" yields its stored value, the
absent path "a.c" yields the supplied default `7`, and the absent path
"a.c" without a default raises `ConfigKeyError("a.c")`. -/
theorem C9_get_behavior_witness :
    Config.get sampleConf "a.b" CVal.null = Except.ok (CVal.int 2) ∧
    Config.get sampleConf "a.c" (CVal.int 7) = Except.ok (CVal.int 7) ∧
    Config.get sampleConf "a.c" CVal.null =
      Except.error (PyErr.configKeyError "a.c") :=
  ⟨(C9_get_behavior sampleConf "a.b" CVal.null).1 (CVal.int 2) rfl,
   ((C9_get_behavior sampleConf "a.c" (CVal.int 7)).2 "c" rfl).1 rfl,
   ((C9_get_behavior sampleConf "a.c" CVal.null).2 "c" rfl).2 rfl⟩

end SmartAnthill
